import Mathlib

/-!
Verification of the lnd backend of lntop (`network/backend/lnd/lnd.go`).

The backend is embedded shallowly: each operation becomes a Lean function
from an `Env` (the behaviour of the connection pool and of the remote stub
for this call) to a trace of observable events (pool acquisition, remote
calls carrying their wire requests, facade release, channel sends) paired
with the operation's result.  Machine integers of the wire protocol are
modelled as `Int`; byte strings as `String`.  Errors of the Go code are the
inductive `GoError`, with `GoError.withStack` standing for
`errors.WithStack` of github.com/pkg/errors, whose `Error()` message is
exactly the message of its cause.

Model translators (`models.go`) and the channel options record
(`network/options`) are not part of the sources under verification; they
are modelled from the specification and marked as such in doc comments.
-/

/-- Errors as they flow through the Go code.  `base msg` is any error value
whose `Error()` message is `msg`; `withStack c` is `errors.WithStack(c)`
from github.com/pkg/errors: it records the caller's program-counter stack,
adds no message text of its own, and its `Error()` returns the cause's
message unchanged. -/
inductive GoError where
  | base (msg : String)
  | withStack (cause : GoError)
deriving DecidableEq, Repr

/-- The `Error()` message of an error value: `errors.WithStack` reports the
message of its cause verbatim. -/
def errMessage : GoError → String
  | GoError.base m => m
  | GoError.withStack c => errMessage c

/-- Unwrapping one layer of wrapping (the `Cause()` / `Unwrap()` of
github.com/pkg/errors); a bare error unwraps to nothing. -/
def GoError.unwrap : GoError → Option GoError
  | GoError.base _ => none
  | GoError.withStack c => some c

/-- Decidable substring test, used to ask whether an error message mentions
an operation name or an argument. -/
def strContains (hay pat : String) : Bool :=
  (List.range (hay.length + 1)).any fun i => List.isPrefixOf pat.data (hay.data.drop i)

/-- `lndDefaultInvoiceExpiry` of lnd.go, line 20. -/
def lndDefaultInvoiceExpiry : Int := 3600

/-- A leased pool connection (`pool.Conn`); only its target string is
observable here. -/
structure Conn where
  target : String
deriving DecidableEq, Repr

/-- The client facade of lnd.go: an `lnrpc.LightningClient` stub paired with
its pool connection.  Remote calls are issued through the environment, so
only the connection is carried. -/
structure Client where
  conn : Conn
deriving DecidableEq, Repr

/-- Wire request of the WalletBalance RPC (`lnrpc.WalletBalanceRequest`):
no fields. -/
structure WalletBalanceRequest where
deriving DecidableEq, Repr

/-- Wire response of the WalletBalance RPC. -/
structure WalletBalanceResponse where
  TotalBalance : Int
  ConfirmedBalance : Int
  UnconfirmedBalance : Int
deriving DecidableEq, Repr

/-- Wire request of the ChannelBalance RPC: no fields. -/
structure ChannelBalanceRequest where
deriving DecidableEq, Repr

/-- Wire response of the ChannelBalance RPC. -/
structure ChannelBalanceResponse where
  Balance : Int
  PendingOpenBalance : Int
deriving DecidableEq, Repr

/-- Wire request of the ListChannels RPC with its four filter flags
(`lnrpc.ListChannelsRequest`). -/
structure ListChannelsRequest where
  ActiveOnly : Bool
  InactiveOnly : Bool
  PublicOnly : Bool
  PrivateOnly : Bool
deriving DecidableEq, Repr

/-- One channel of the ListChannels wire response (`lnrpc.Channel`),
restricted to representative fields. -/
structure ChannelProto where
  Active : Bool
  RemotePubkey : String
  ChanId : Int
  Capacity : Int
  LocalBalance : Int
  RemoteBalance : Int
deriving DecidableEq, Repr

/-- Wire response of the ListChannels RPC. -/
structure ListChannelsResponse where
  Channels : List ChannelProto
deriving DecidableEq, Repr

/-- The `lnrpc.Invoice` wire message: used both as the AddInvoice request
(lnd.go lines 171-176, which set only `Value`, `Memo`, `CreationDate` and
`Expiry`) and as the message received from the SubscribeInvoices stream. -/
structure InvoiceProto where
  Value : Int
  Memo : String
  CreationDate : Int
  Expiry : Int
  RHash : String
  PaymentRequest : String
  Settled : Bool
deriving DecidableEq, Repr

/-- Wire response of the AddInvoice RPC: note it carries no amount,
description or expiry. -/
structure AddInvoiceResponse where
  RHash : String
  PaymentRequest : String
deriving DecidableEq, Repr

/-- Wire request of the LookupInvoice RPC (`lnrpc.PaymentHash`); lnd.go sets
only the string form of the hash. -/
structure PaymentHash where
  RHashStr : String
deriving DecidableEq, Repr

/-- Wire request of the SendPaymentSync RPC (`lnrpc.SendRequest`); lnd.go
line 227 sets only `PaymentRequest`, leaving destination and amount at
their zero values. -/
structure SendRequest where
  Dest : String
  Amt : Int
  PaymentRequest : String
deriving DecidableEq, Repr

/-- Wire response of the SendPaymentSync RPC (`lnrpc.SendResponse`): note it
carries no destination and no amount. -/
structure SendResponse where
  PaymentError : String
  PaymentPreimage : String
  PaymentHash : String
deriving DecidableEq, Repr

/-- Wire request of the DecodePayReq RPC (`lnrpc.PayReqString`). -/
structure PayReqString where
  PayReq : String
deriving DecidableEq, Repr

/-- Wire response of the DecodePayReq RPC (`lnrpc.PayReq`), restricted to
representative fields. -/
structure PayReqProto where
  Destination : String
  PaymentHashStr : String
  NumSatoshis : Int
deriving DecidableEq, Repr

/-- Modelled from the spec: the `WalletBalance` domain model, a stable value
object mirroring the wire response (`models.WalletBalance` is not under the
verified sources). -/
structure WalletBalance where
  TotalBalance : Int
  ConfirmedBalance : Int
  UnconfirmedBalance : Int
deriving DecidableEq, Repr

/-- Modelled from the spec: the `ChannelBalance` domain model
(`models.ChannelBalance` is not under the verified sources). -/
structure ChannelBalance where
  Balance : Int
  PendingOpenBalance : Int
deriving DecidableEq, Repr

/-- Modelled from the spec: the `Channel` domain model (`models.Channel` is
not under the verified sources). -/
structure Channel where
  Active : Bool
  RemotePubkey : String
  ID : Int
  Capacity : Int
  LocalBalance : Int
  RemoteBalance : Int
deriving DecidableEq, Repr

/-- Modelled from the spec: the `Invoice` domain model (`models.Invoice` is
not under the verified sources). -/
structure Invoice where
  Amount : Int
  Description : String
  CreationDate : Int
  Expiry : Int
  RHash : String
  PaymentRequest : String
  Settled : Bool
deriving DecidableEq, Repr

/-- Modelled from the spec: the `PayReq` domain model — destination, amount,
and the opaque encoded request string (`models.PayReq` is not under the
verified sources).  The Go field holding the encoded string is named
`String`, kept here. -/
structure PayReq where
  Destination : String
  Amount : Int
  String : String
deriving DecidableEq, Repr

/-- Modelled from the spec: the `Payment` domain model, combining the
original request object with wire-response fields (`models.Payment` is not
under the verified sources). -/
structure Payment where
  PaymentError : String
  PaymentPreimage : String
  PaymentHash : String
  PayReq : PayReq
deriving DecidableEq, Repr

/-- The payment's destination, read from the embedded original request. -/
def Payment.destination (p : Payment) : String := p.PayReq.Destination

/-- The payment's amount, read from the embedded original request. -/
def Payment.amount (p : Payment) : Int := p.PayReq.Amount

/-- Modelled from the spec: `protoToWalletBalance`, a pure field-copying
translator (missing from the verified sources; §4.5 of the spec). -/
def protoToWalletBalance (r : WalletBalanceResponse) : WalletBalance :=
  { TotalBalance := r.TotalBalance
    ConfirmedBalance := r.ConfirmedBalance
    UnconfirmedBalance := r.UnconfirmedBalance }

/-- Modelled from the spec: `protoToChannelBalance`, a pure field-copying
translator (missing from the verified sources). -/
def protoToChannelBalance (r : ChannelBalanceResponse) : ChannelBalance :=
  { Balance := r.Balance, PendingOpenBalance := r.PendingOpenBalance }

/-- Modelled from the spec: per-channel field copy used by
`listChannelsProtoToChannels` (missing from the verified sources). -/
def channelProtoToChannel (c : ChannelProto) : Channel :=
  { Active := c.Active
    RemotePubkey := c.RemotePubkey
    ID := c.ChanId
    Capacity := c.Capacity
    LocalBalance := c.LocalBalance
    RemoteBalance := c.RemoteBalance }

/-- Modelled from the spec: `listChannelsProtoToChannels` maps the wire
channels to domain channels (missing from the verified sources). -/
def listChannelsProtoToChannels (r : ListChannelsResponse) : List Channel :=
  r.Channels.map channelProtoToChannel

/-- Modelled from the spec: `addInvoiceProtoToInvoice` merges the original
request fields (amount, memo, creation date, expiry — which the wire
response omits) with the response fields (hash, payment request string);
§3 and §8 of the spec (missing from the verified sources). -/
def addInvoiceProtoToInvoice (req : InvoiceProto) (resp : AddInvoiceResponse) : Invoice :=
  { Amount := req.Value
    Description := req.Memo
    CreationDate := req.CreationDate
    Expiry := req.Expiry
    RHash := resp.RHash
    PaymentRequest := resp.PaymentRequest
    Settled := false }

/-- Modelled from the spec: `lookupInvoiceProtoToInvoice`, a pure
field-copying translator from the `lnrpc.Invoice` wire message (missing
from the verified sources). -/
def lookupInvoiceProtoToInvoice (r : InvoiceProto) : Invoice :=
  { Amount := r.Value
    Description := r.Memo
    CreationDate := r.CreationDate
    Expiry := r.Expiry
    RHash := r.RHash
    PaymentRequest := r.PaymentRequest
    Settled := r.Settled }

/-- Modelled from the spec: `sendPaymentProtoToPayment` combines the
original request object with the wire response, so destination and amount
come from the caller's input (§4.3 of the spec; missing from the verified
sources). -/
def sendPaymentProtoToPayment (payreq : PayReq) (resp : SendResponse) : Payment :=
  { PaymentError := resp.PaymentError
    PaymentPreimage := resp.PaymentPreimage
    PaymentHash := resp.PaymentHash
    PayReq := payreq }

/-- Modelled from the spec: `payreqProtoToPayReq` builds the domain payment
request from the decode response together with the original encoded string
(missing from the verified sources). -/
def payreqProtoToPayReq (resp : PayReqProto) (payreq : String) : PayReq :=
  { Destination := resp.Destination, Amount := resp.NumSatoshis, String := payreq }

/-- Modelled from the spec: the four channel filter options of
`network/options` (missing from the verified sources). -/
inductive ChannelOpt where
  | activeOnly
  | inactiveOnly
  | publicOnly
  | privateOnly
deriving DecidableEq, Repr

/-- Modelled from the spec: the merged channel options record of
`network/options`, defaulting every flag to false (missing from the
verified sources). -/
structure ChannelOptions where
  Active : Bool
  Inactive : Bool
  Public : Bool
  Private : Bool
deriving DecidableEq, Repr

/-- Modelled from the spec: applying one filter option overrides the
corresponding flag to true. -/
def applyChannelOpt (o : ChannelOptions) : ChannelOpt → ChannelOptions
  | ChannelOpt.activeOnly => { o with Active := true }
  | ChannelOpt.inactiveOnly => { o with Inactive := true }
  | ChannelOpt.publicOnly => { o with Public := true }
  | ChannelOpt.privateOnly => { o with Private := true }

/-- Modelled from the spec: `options.NewChannelOptions` merges the variadic
options into one record via defaults-then-override composition (§4.3 of
the spec; missing from the verified sources). -/
def NewChannelOptions (opt : List ChannelOpt) : ChannelOptions :=
  opt.foldl applyChannelOpt
    { Active := false, Inactive := false, Public := false, Private := false }

/-- Observable events of one backend operation, in program order: pool
acquisition (`l.pool.Get` inside `Backend.Client`), each remote call with
the wire request it carries, the facade release (`Client.Close`, i.e.
`conn.Close`), stream receives, and sends to the caller's invoice
channel. -/
inductive Event where
  | acquire
  | release
  | callWalletBalance (req : WalletBalanceRequest)
  | callChannelBalance (req : ChannelBalanceRequest)
  | callListChannels (req : ListChannelsRequest)
  | callAddInvoice (req : InvoiceProto)
  | callLookupInvoice (req : PaymentHash)
  | callSendPaymentSync (req : SendRequest)
  | callDecodePayReq (req : PayReqString)
  | callSubscribeInvoices
  | recv
  | chanSend (inv : Invoice)
deriving DecidableEq, Repr

/-- `Client.Close` of lnd.go lines 28-30: closing the facade closes its
pool connection, observable as one release event. -/
def Client.Close (_c : Client) : Event := Event.release

/-- Is the event a remote call through the stub? -/
def Event.isRemoteCall : Event → Bool
  | Event.acquire => false
  | Event.release => false
  | Event.recv => false
  | Event.chanSend _ => false
  | _ => true

/-- The invoice sent on the caller's channel, if the event is a send. -/
def Event.sentInvoice : Event → Option Invoice
  | Event.chanSend i => some i
  | _ => none

/-- The ListChannels wire request carried by the event, if any. -/
def Event.listChannelsReq : Event → Option ListChannelsRequest
  | Event.callListChannels r => some r
  | _ => none

/-- The AddInvoice wire request carried by the event, if any. -/
def Event.addInvoiceReq : Event → Option InvoiceProto
  | Event.callAddInvoice r => some r
  | _ => none

/-- The SendPaymentSync wire request carried by the event, if any. -/
def Event.sendReq : Event → Option SendRequest
  | Event.callSendPaymentSync r => some r
  | _ => none

/-- The invoices sent to the caller's channel along a trace, in order. -/
def chanSends (tr : List Event) : List Invoice := tr.filterMap Event.sentInvoice

/-- The behaviour of the collaborators for one operation: the pool's answer
to `Get`, the current wall-clock second (`time.Now().Unix()`), the remote
stub's answer to each unary RPC as a function of the wire request, and,
for `SubscribeInvoices`, either a stream-open error or the stream's finite
message prefix followed by its terminal receive error. -/
structure Env where
  poolGet : Except GoError Conn
  now : Int
  walletBalance : WalletBalanceRequest → Except GoError WalletBalanceResponse
  channelBalance : ChannelBalanceRequest → Except GoError ChannelBalanceResponse
  listChannels : ListChannelsRequest → Except GoError ListChannelsResponse
  addInvoice : InvoiceProto → Except GoError AddInvoiceResponse
  lookupInvoice : PaymentHash → Except GoError InvoiceProto
  sendPaymentSync : SendRequest → Except GoError SendResponse
  decodePayReq : PayReqString → Except GoError PayReqProto
  subscribeInvoices : Except GoError (List InvoiceProto × GoError)

/-- `Backend.Client` (lnd.go lines 63-75): get a connection from the pool —
on failure return the pool's error unchanged — and wrap it with a stub into
a facade. -/
def Backend.Client (env : Env) : List Event × Except GoError Client :=
  match env.poolGet with
  | Except.error e => ([Event.acquire], Except.error e)
  | Except.ok conn => ([Event.acquire], Except.ok { conn := conn })

/-- `Backend.GetWalletBalance` (lnd.go lines 81-101): acquire, call
WalletBalance with an empty request, translate; `defer clt.Close()`
releases the facade after the body on both paths; a remote error is
returned as `errors.WithStack(err)`. -/
def Backend.GetWalletBalance (env : Env) : List Event × Except GoError WalletBalance :=
  match Backend.Client env with
  | (tr, Except.error e) => (tr, Except.error e)
  | (tr, Except.ok clt) =>
    let req : WalletBalanceRequest := {}
    match env.walletBalance req with
    | Except.error e =>
      (tr ++ [Event.callWalletBalance req, clt.Close], Except.error (GoError.withStack e))
    | Except.ok resp =>
      (tr ++ [Event.callWalletBalance req, clt.Close], Except.ok (protoToWalletBalance resp))

/-- `Backend.GetChannelBalance` (lnd.go lines 103-123): same pattern over
the ChannelBalance RPC. -/
def Backend.GetChannelBalance (env : Env) : List Event × Except GoError ChannelBalance :=
  match Backend.Client env with
  | (tr, Except.error e) => (tr, Except.error e)
  | (tr, Except.ok clt) =>
    let req : ChannelBalanceRequest := {}
    match env.channelBalance req with
    | Except.error e =>
      (tr ++ [Event.callChannelBalance req, clt.Close], Except.error (GoError.withStack e))
    | Except.ok resp =>
      (tr ++ [Event.callChannelBalance req, clt.Close], Except.ok (protoToChannelBalance resp))

/-- `Backend.ListChannels` (lnd.go lines 125-158): acquire, merge the
variadic filter options, place the four flags on the wire request, call,
translate; release on both paths. -/
def Backend.ListChannels (env : Env) (opt : List ChannelOpt) :
    List Event × Except GoError (List Channel) :=
  match Backend.Client env with
  | (tr, Except.error e) => (tr, Except.error e)
  | (tr, Except.ok clt) =>
    let opts := NewChannelOptions opt
    let req : ListChannelsRequest :=
      { ActiveOnly := opts.Active
        InactiveOnly := opts.Inactive
        PublicOnly := opts.Public
        PrivateOnly := opts.Private }
    match env.listChannels req with
    | Except.error e =>
      (tr ++ [Event.callListChannels req, clt.Close], Except.error (GoError.withStack e))
    | Except.ok resp =>
      (tr ++ [Event.callListChannels req, clt.Close], Except.ok (listChannelsProtoToChannels resp))

/-- `Backend.CreateInvoice` (lnd.go lines 160-188): acquire, build an
`lnrpc.Invoice` request from amount, description, the current timestamp and
the default expiry constant (all other wire fields at their zero values),
call AddInvoice, merge request and response into the domain invoice;
release on both paths. -/
def Backend.CreateInvoice (env : Env) (amount : Int) (desc : String) :
    List Event × Except GoError Invoice :=
  match Backend.Client env with
  | (tr, Except.error e) => (tr, Except.error e)
  | (tr, Except.ok clt) =>
    let req : InvoiceProto :=
      { Value := amount
        Memo := desc
        CreationDate := env.now
        Expiry := lndDefaultInvoiceExpiry
        RHash := ""
        PaymentRequest := ""
        Settled := false }
    match env.addInvoice req with
    | Except.error e =>
      (tr ++ [Event.callAddInvoice req, clt.Close], Except.error (GoError.withStack e))
    | Except.ok resp =>
      (tr ++ [Event.callAddInvoice req, clt.Close], Except.ok (addInvoiceProtoToInvoice req resp))

/-- `Backend.GetInvoice` (lnd.go lines 190-213): acquire, call
LookupInvoice by hash string, translate; release on both paths. -/
def Backend.GetInvoice (env : Env) (RHash : String) : List Event × Except GoError Invoice :=
  match Backend.Client env with
  | (tr, Except.error e) => (tr, Except.error e)
  | (tr, Except.ok clt) =>
    let req : PaymentHash := { RHashStr := RHash }
    match env.lookupInvoice req with
    | Except.error e =>
      (tr ++ [Event.callLookupInvoice req, clt.Close], Except.error (GoError.withStack e))
    | Except.ok resp =>
      (tr ++ [Event.callLookupInvoice req, clt.Close], Except.ok (lookupInvoiceProtoToInvoice resp))

/-- `Backend.SendPayment` (lnd.go lines 215-239): acquire, send only the
encoded payment-request string on the wire, combine the original request
object with the response into the domain payment; release on both paths. -/
def Backend.SendPayment (env : Env) (payreq : PayReq) : List Event × Except GoError Payment :=
  match Backend.Client env with
  | (tr, Except.error e) => (tr, Except.error e)
  | (tr, Except.ok clt) =>
    let req : SendRequest := { Dest := "", Amt := 0, PaymentRequest := payreq.String }
    match env.sendPaymentSync req with
    | Except.error e =>
      (tr ++ [Event.callSendPaymentSync req, clt.Close], Except.error (GoError.withStack e))
    | Except.ok resp =>
      (tr ++ [Event.callSendPaymentSync req, clt.Close],
        Except.ok (sendPaymentProtoToPayment payreq resp))

/-- `Backend.DecodePayReq` (lnd.go lines 241-255): acquire, call
DecodePayReq on the encoded string, build the domain payment request from
the response together with the original string; release on both paths. -/
def Backend.DecodePayReq (env : Env) (payreq : String) : List Event × Except GoError PayReq :=
  match Backend.Client env with
  | (tr, Except.error e) => (tr, Except.error e)
  | (tr, Except.ok clt) =>
    let req : PayReqString := { PayReq := payreq }
    match env.decodePayReq req with
    | Except.error e =>
      (tr ++ [Event.callDecodePayReq req, clt.Close], Except.error (GoError.withStack e))
    | Except.ok resp =>
      (tr ++ [Event.callDecodePayReq req, clt.Close], Except.ok (payreqProtoToPayReq resp payreq))

/-- The receive loop of `Backend.SubscribeInvoice` (lnd.go lines 53-60):
each received message is translated and sent to the caller's channel; the
first receive error ends the loop and is returned. -/
def recvLoop : List InvoiceProto → GoError → List Event × GoError
  | [], e => ([Event.recv], e)
  | m :: ms, e =>
    let rest := recvLoop ms e
    (Event.recv :: Event.chanSend (lookupInvoiceProtoToInvoice m) :: rest.1, rest.2)

/-- `Backend.SubscribeInvoice` (lnd.go lines 42-61): acquire a facade — on
failure return the pool's error unchanged — open the invoice stream with an
empty subscription request — on failure return that error unchanged — then
run the receive loop until it yields an error, which is returned.  No
release is ever performed on this path. -/
def Backend.SubscribeInvoice (env : Env) : List Event × GoError :=
  match Backend.Client env with
  | (tr, Except.error e) => (tr, e)
  | (tr, Except.ok _clt) =>
    match env.subscribeInvoices with
    | Except.error e => (tr ++ [Event.callSubscribeInvoices], e)
    | Except.ok (msgs, termErr) =>
      let loop := recvLoop msgs termErr
      (tr ++ Event.callSubscribeInvoices :: loop.1, loop.2)

/-! ### Shape lemmas: the trace and result of each operation, by case on the
pool's answer and the stub's answer. -/

theorem Client_ok (env : Env) (conn : Conn) (h : env.poolGet = Except.ok conn) :
    Backend.Client env = ([Event.acquire], Except.ok { conn := conn }) := by
  unfold Backend.Client
  rw [h]

theorem Client_err (env : Env) (e : GoError) (h : env.poolGet = Except.error e) :
    Backend.Client env = ([Event.acquire], Except.error e) := by
  unfold Backend.Client
  rw [h]

theorem GetWalletBalance_errAcq (env : Env) (e : GoError) (h : env.poolGet = Except.error e) :
    Backend.GetWalletBalance env = ([Event.acquire], Except.error e) := by
  unfold Backend.GetWalletBalance
  rw [Client_err env e h]

theorem GetWalletBalance_ok (env : Env) (conn : Conn) (h : env.poolGet = Except.ok conn) :
    Backend.GetWalletBalance env =
      ([Event.acquire, Event.callWalletBalance {}, Event.release],
        match env.walletBalance {} with
        | Except.error e => Except.error (GoError.withStack e)
        | Except.ok resp => Except.ok (protoToWalletBalance resp)) := by
  unfold Backend.GetWalletBalance
  rw [Client_ok env conn h]
  cases henv : env.walletBalance {} <;> simp [henv, Client.Close]

theorem GetChannelBalance_errAcq (env : Env) (e : GoError) (h : env.poolGet = Except.error e) :
    Backend.GetChannelBalance env = ([Event.acquire], Except.error e) := by
  unfold Backend.GetChannelBalance
  rw [Client_err env e h]

theorem GetChannelBalance_ok (env : Env) (conn : Conn) (h : env.poolGet = Except.ok conn) :
    Backend.GetChannelBalance env =
      ([Event.acquire, Event.callChannelBalance {}, Event.release],
        match env.channelBalance {} with
        | Except.error e => Except.error (GoError.withStack e)
        | Except.ok resp => Except.ok (protoToChannelBalance resp)) := by
  unfold Backend.GetChannelBalance
  rw [Client_ok env conn h]
  cases henv : env.channelBalance {} <;> simp [henv, Client.Close]

theorem ListChannels_errAcq (env : Env) (opt : List ChannelOpt) (e : GoError)
    (h : env.poolGet = Except.error e) :
    Backend.ListChannels env opt = ([Event.acquire], Except.error e) := by
  unfold Backend.ListChannels
  rw [Client_err env e h]

theorem ListChannels_ok (env : Env) (opt : List ChannelOpt) (conn : Conn)
    (h : env.poolGet = Except.ok conn) :
    Backend.ListChannels env opt =
      ([Event.acquire,
        Event.callListChannels
          { ActiveOnly := (NewChannelOptions opt).Active
            InactiveOnly := (NewChannelOptions opt).Inactive
            PublicOnly := (NewChannelOptions opt).Public
            PrivateOnly := (NewChannelOptions opt).Private },
        Event.release],
        match env.listChannels
          { ActiveOnly := (NewChannelOptions opt).Active
            InactiveOnly := (NewChannelOptions opt).Inactive
            PublicOnly := (NewChannelOptions opt).Public
            PrivateOnly := (NewChannelOptions opt).Private } with
        | Except.error e => Except.error (GoError.withStack e)
        | Except.ok resp => Except.ok (listChannelsProtoToChannels resp)) := by
  unfold Backend.ListChannels
  rw [Client_ok env conn h]
  cases henv : env.listChannels
    { ActiveOnly := (NewChannelOptions opt).Active
      InactiveOnly := (NewChannelOptions opt).Inactive
      PublicOnly := (NewChannelOptions opt).Public
      PrivateOnly := (NewChannelOptions opt).Private } <;>
    simp [henv, Client.Close]

theorem CreateInvoice_errAcq (env : Env) (amount : Int) (desc : String) (e : GoError)
    (h : env.poolGet = Except.error e) :
    Backend.CreateInvoice env amount desc = ([Event.acquire], Except.error e) := by
  unfold Backend.CreateInvoice
  rw [Client_err env e h]

theorem CreateInvoice_ok (env : Env) (amount : Int) (desc : String) (conn : Conn)
    (h : env.poolGet = Except.ok conn) :
    Backend.CreateInvoice env amount desc =
      ([Event.acquire,
        Event.callAddInvoice
          { Value := amount
            Memo := desc
            CreationDate := env.now
            Expiry := lndDefaultInvoiceExpiry
            RHash := ""
            PaymentRequest := ""
            Settled := false },
        Event.release],
        match env.addInvoice
          { Value := amount
            Memo := desc
            CreationDate := env.now
            Expiry := lndDefaultInvoiceExpiry
            RHash := ""
            PaymentRequest := ""
            Settled := false } with
        | Except.error e => Except.error (GoError.withStack e)
        | Except.ok resp =>
          Except.ok (addInvoiceProtoToInvoice
            { Value := amount
              Memo := desc
              CreationDate := env.now
              Expiry := lndDefaultInvoiceExpiry
              RHash := ""
              PaymentRequest := ""
              Settled := false } resp)) := by
  unfold Backend.CreateInvoice
  rw [Client_ok env conn h]
  cases henv : env.addInvoice
    { Value := amount
      Memo := desc
      CreationDate := env.now
      Expiry := lndDefaultInvoiceExpiry
      RHash := ""
      PaymentRequest := ""
      Settled := false } <;>
    simp [henv, Client.Close]

theorem GetInvoice_errAcq (env : Env) (rhash : String) (e : GoError)
    (h : env.poolGet = Except.error e) :
    Backend.GetInvoice env rhash = ([Event.acquire], Except.error e) := by
  unfold Backend.GetInvoice
  rw [Client_err env e h]

theorem GetInvoice_ok (env : Env) (rhash : String) (conn : Conn)
    (h : env.poolGet = Except.ok conn) :
    Backend.GetInvoice env rhash =
      ([Event.acquire, Event.callLookupInvoice { RHashStr := rhash }, Event.release],
        match env.lookupInvoice { RHashStr := rhash } with
        | Except.error e => Except.error (GoError.withStack e)
        | Except.ok resp => Except.ok (lookupInvoiceProtoToInvoice resp)) := by
  unfold Backend.GetInvoice
  rw [Client_ok env conn h]
  cases henv : env.lookupInvoice { RHashStr := rhash } <;> simp [henv, Client.Close]

theorem SendPayment_errAcq (env : Env) (payreq : PayReq) (e : GoError)
    (h : env.poolGet = Except.error e) :
    Backend.SendPayment env payreq = ([Event.acquire], Except.error e) := by
  unfold Backend.SendPayment
  rw [Client_err env e h]

theorem SendPayment_ok (env : Env) (payreq : PayReq) (conn : Conn)
    (h : env.poolGet = Except.ok conn) :
    Backend.SendPayment env payreq =
      ([Event.acquire,
        Event.callSendPaymentSync { Dest := "", Amt := 0, PaymentRequest := payreq.String },
        Event.release],
        match env.sendPaymentSync { Dest := "", Amt := 0, PaymentRequest := payreq.String } with
        | Except.error e => Except.error (GoError.withStack e)
        | Except.ok resp => Except.ok (sendPaymentProtoToPayment payreq resp)) := by
  unfold Backend.SendPayment
  rw [Client_ok env conn h]
  cases henv : env.sendPaymentSync { Dest := "", Amt := 0, PaymentRequest := payreq.String } <;>
    simp [henv, Client.Close]

theorem DecodePayReq_errAcq (env : Env) (payreq : String) (e : GoError)
    (h : env.poolGet = Except.error e) :
    Backend.DecodePayReq env payreq = ([Event.acquire], Except.error e) := by
  unfold Backend.DecodePayReq
  rw [Client_err env e h]

theorem DecodePayReq_ok (env : Env) (payreq : String) (conn : Conn)
    (h : env.poolGet = Except.ok conn) :
    Backend.DecodePayReq env payreq =
      ([Event.acquire, Event.callDecodePayReq { PayReq := payreq }, Event.release],
        match env.decodePayReq { PayReq := payreq } with
        | Except.error e => Except.error (GoError.withStack e)
        | Except.ok resp => Except.ok (payreqProtoToPayReq resp payreq)) := by
  unfold Backend.DecodePayReq
  rw [Client_ok env conn h]
  cases henv : env.decodePayReq { PayReq := payreq } <;> simp [henv, Client.Close]

theorem SubscribeInvoice_errAcq (env : Env) (e : GoError) (h : env.poolGet = Except.error e) :
    Backend.SubscribeInvoice env = ([Event.acquire], e) := by
  unfold Backend.SubscribeInvoice
  rw [Client_err env e h]

theorem SubscribeInvoice_errOpen (env : Env) (conn : Conn) (e : GoError)
    (h : env.poolGet = Except.ok conn) (hs : env.subscribeInvoices = Except.error e) :
    Backend.SubscribeInvoice env = ([Event.acquire, Event.callSubscribeInvoices], e) := by
  unfold Backend.SubscribeInvoice
  rw [Client_ok env conn h, hs]
  rfl

theorem SubscribeInvoice_stream (env : Env) (conn : Conn) (msgs : List InvoiceProto)
    (termErr : GoError) (h : env.poolGet = Except.ok conn)
    (hs : env.subscribeInvoices = Except.ok (msgs, termErr)) :
    Backend.SubscribeInvoice env =
      ([Event.acquire, Event.callSubscribeInvoices] ++ (recvLoop msgs termErr).1,
        (recvLoop msgs termErr).2) := by
  unfold Backend.SubscribeInvoice
  rw [Client_ok env conn h, hs]
  rfl

/-- The receive loop sends exactly the translations of the stream's
messages, in order. -/
theorem recvLoop_chanSends (msgs : List InvoiceProto) (e : GoError) :
    chanSends (recvLoop msgs e).1 = msgs.map lookupInvoiceProtoToInvoice := by
  induction msgs with
  | nil => rfl
  | cons m ms ih =>
    simp only [recvLoop, chanSends, List.filterMap_cons, List.map_cons]
    simpa [Event.sentInvoice, chanSends] using ih

/-- The receive loop returns the stream's terminal error. -/
theorem recvLoop_result (msgs : List InvoiceProto) (e : GoError) :
    (recvLoop msgs e).2 = e := by
  induction msgs with
  | nil => rfl
  | cons m ms ih => simpa [recvLoop] using ih

/-- The receive loop never emits a release event. -/
theorem recvLoop_no_release (msgs : List InvoiceProto) (e : GoError) :
    Event.release ∉ (recvLoop msgs e).1 := by
  induction msgs with
  | nil => simp [recvLoop]
  | cons m ms ih => simp [recvLoop, ih]

/-! ### The claims. -/

/-- Claim C1: for every unary operation (GetWalletBalance,
GetChannelBalance, ListChannels, CreateInvoice, GetInvoice, SendPayment,
DecodePayReq), whenever facade acquisition succeeds, the facade's release
(`Client.Close`) occurs exactly once before the operation returns — on the
success path and on the remote-call-error path alike, never zero times and
never twice. -/
theorem C1_release_exactly_once (env : Env) (conn : Conn)
    (h : env.poolGet = Except.ok conn) :
    (Backend.GetWalletBalance env).1.count Event.release = 1
    ∧ (Backend.GetChannelBalance env).1.count Event.release = 1
    ∧ (∀ opt : List ChannelOpt, (Backend.ListChannels env opt).1.count Event.release = 1)
    ∧ (∀ (amount : Int) (desc : String),
        (Backend.CreateInvoice env amount desc).1.count Event.release = 1)
    ∧ (∀ rhash : String, (Backend.GetInvoice env rhash).1.count Event.release = 1)
    ∧ (∀ payreq : PayReq, (Backend.SendPayment env payreq).1.count Event.release = 1)
    ∧ (∀ payreq : String, (Backend.DecodePayReq env payreq).1.count Event.release = 1) := by
  refine ⟨?_, ?_, ?_, ?_, ?_, ?_, ?_⟩
  · rw [GetWalletBalance_ok env conn h]
    simp [List.count_cons, List.count_nil]
  · rw [GetChannelBalance_ok env conn h]
    simp [List.count_cons, List.count_nil]
  · intro opt
    rw [ListChannels_ok env opt conn h]
    simp [List.count_cons, List.count_nil]
  · intro amount desc
    rw [CreateInvoice_ok env amount desc conn h]
    simp [List.count_cons, List.count_nil]
  · intro rhash
    rw [GetInvoice_ok env rhash conn h]
    simp [List.count_cons, List.count_nil]
  · intro payreq
    rw [SendPayment_ok env payreq conn h]
    simp [List.count_cons, List.count_nil]
  · intro payreq
    rw [DecodePayReq_ok env payreq conn h]
    simp [List.count_cons, List.count_nil]

/-- A concrete environment in which the pool and every remote call succeed;
used to evaluate the theorems on closed inputs. -/
def envOkW : Env :=
  { poolGet := Except.ok { target := "lnd.example:10009" }
    now := 1700000000
    walletBalance := fun _ =>
      Except.ok { TotalBalance := 7, ConfirmedBalance := 5, UnconfirmedBalance := 2 }
    channelBalance := fun _ => Except.ok { Balance := 3, PendingOpenBalance := 1 }
    listChannels := fun _ => Except.ok { Channels := [] }
    addInvoice := fun _ => Except.ok { RHash := "ab12", PaymentRequest := "lnbc1qqq" }
    lookupInvoice := fun _ =>
      Except.ok
        { Value := 4, Memo := "m", CreationDate := 1, Expiry := 2, RHash := "cd34"
          PaymentRequest := "lnbc1rrr", Settled := true }
    sendPaymentSync := fun _ =>
      Except.ok { PaymentError := "", PaymentPreimage := "pre", PaymentHash := "ph" }
    decodePayReq := fun _ =>
      Except.ok { Destination := "dst", PaymentHashStr := "ph", NumSatoshis := 21 }
    subscribeInvoices := Except.ok ([], GoError.base "EOF") }

/-- A concrete environment in which pool acquisition fails. -/
def envAcqErrW : Env :=
  { envOkW with poolGet := Except.error (GoError.base "pool: context deadline exceeded") }

/-- A concrete environment in which acquisition succeeds but every remote
call fails with the same cause. -/
def envCallErrW : Env :=
  { envOkW with
    walletBalance := fun _ => Except.error (GoError.base "boom")
    channelBalance := fun _ => Except.error (GoError.base "boom")
    listChannels := fun _ => Except.error (GoError.base "boom")
    addInvoice := fun _ => Except.error (GoError.base "boom")
    lookupInvoice := fun _ => Except.error (GoError.base "boom")
    sendPaymentSync := fun _ => Except.error (GoError.base "boom")
    decodePayReq := fun _ => Except.error (GoError.base "boom")
    subscribeInvoices := Except.error (GoError.base "boom") }

/-- Witness for C1 at a concrete successful environment: one release on the
success path (GetWalletBalance) and one on a path with arguments
(DecodePayReq). -/
theorem C1_release_exactly_once_witness :
    envOkW.poolGet = Except.ok { target := "lnd.example:10009" }
    ∧ (Backend.GetWalletBalance envOkW).1.count Event.release = 1
    ∧ (Backend.DecodePayReq envOkW "lnbc1xyz").1.count Event.release = 1 :=
  ⟨rfl, (C1_release_exactly_once envOkW { target := "lnd.example:10009" } rfl).1,
    (C1_release_exactly_once envOkW { target := "lnd.example:10009" } rfl).2.2.2.2.2.2 "lnbc1xyz"⟩

/-- Claim C2: for every unary operation, if facade acquisition fails, the
operation returns the pool's error, no remote call is issued through the
stub, and no release is performed. -/
theorem C2_acq_failure_no_call_no_release (env : Env) (e : GoError)
    (h : env.poolGet = Except.error e) :
    ((Backend.GetWalletBalance env).2 = Except.error e
      ∧ (Backend.GetWalletBalance env).1.filter Event.isRemoteCall = []
      ∧ (Backend.GetWalletBalance env).1.count Event.release = 0)
    ∧ ((Backend.GetChannelBalance env).2 = Except.error e
      ∧ (Backend.GetChannelBalance env).1.filter Event.isRemoteCall = []
      ∧ (Backend.GetChannelBalance env).1.count Event.release = 0)
    ∧ (∀ opt : List ChannelOpt,
        (Backend.ListChannels env opt).2 = Except.error e
        ∧ (Backend.ListChannels env opt).1.filter Event.isRemoteCall = []
        ∧ (Backend.ListChannels env opt).1.count Event.release = 0)
    ∧ (∀ (amount : Int) (desc : String),
        (Backend.CreateInvoice env amount desc).2 = Except.error e
        ∧ (Backend.CreateInvoice env amount desc).1.filter Event.isRemoteCall = []
        ∧ (Backend.CreateInvoice env amount desc).1.count Event.release = 0)
    ∧ (∀ rhash : String,
        (Backend.GetInvoice env rhash).2 = Except.error e
        ∧ (Backend.GetInvoice env rhash).1.filter Event.isRemoteCall = []
        ∧ (Backend.GetInvoice env rhash).1.count Event.release = 0)
    ∧ (∀ payreq : PayReq,
        (Backend.SendPayment env payreq).2 = Except.error e
        ∧ (Backend.SendPayment env payreq).1.filter Event.isRemoteCall = []
        ∧ (Backend.SendPayment env payreq).1.count Event.release = 0)
    ∧ (∀ payreq : String,
        (Backend.DecodePayReq env payreq).2 = Except.error e
        ∧ (Backend.DecodePayReq env payreq).1.filter Event.isRemoteCall = []
        ∧ (Backend.DecodePayReq env payreq).1.count Event.release = 0) := by
  refine ⟨?_, ?_, ?_, ?_, ?_, ?_, ?_⟩
  · rw [GetWalletBalance_errAcq env e h]
    exact ⟨rfl, rfl, rfl⟩
  · rw [GetChannelBalance_errAcq env e h]
    exact ⟨rfl, rfl, rfl⟩
  · intro opt
    rw [ListChannels_errAcq env opt e h]
    exact ⟨rfl, rfl, rfl⟩
  · intro amount desc
    rw [CreateInvoice_errAcq env amount desc e h]
    exact ⟨rfl, rfl, rfl⟩
  · intro rhash
    rw [GetInvoice_errAcq env rhash e h]
    exact ⟨rfl, rfl, rfl⟩
  · intro payreq
    rw [SendPayment_errAcq env payreq e h]
    exact ⟨rfl, rfl, rfl⟩
  · intro payreq
    rw [DecodePayReq_errAcq env payreq e h]
    exact ⟨rfl, rfl, rfl⟩

/-- Witness for C2 at a concrete environment whose pool fails. -/
theorem C2_acq_failure_witness :
    envAcqErrW.poolGet = Except.error (GoError.base "pool: context deadline exceeded")
    ∧ (Backend.GetWalletBalance envAcqErrW).2
        = Except.error (GoError.base "pool: context deadline exceeded")
    ∧ (Backend.GetWalletBalance envAcqErrW).1.filter Event.isRemoteCall = []
    ∧ (Backend.GetWalletBalance envAcqErrW).1.count Event.release = 0 :=
  ⟨rfl,
    (C2_acq_failure_no_call_no_release envAcqErrW
      (GoError.base "pool: context deadline exceeded") rfl).1.1,
    (C2_acq_failure_no_call_no_release envAcqErrW
      (GoError.base "pool: context deadline exceeded") rfl).1.2.1,
    (C2_acq_failure_no_call_no_release envAcqErrW
      (GoError.base "pool: context deadline exceeded") rfl).1.2.2⟩

/-- Claim C8: for every operation — the seven unary operations and the
subscription — a pool acquisition error is returned to the caller
unchanged: the whole outcome is the single acquisition attempt followed by
the pool's own error value, with no wrapping, transformation or retry. -/
theorem C8_pool_error_unchanged (env : Env) (e : GoError)
    (h : env.poolGet = Except.error e) :
    Backend.GetWalletBalance env = ([Event.acquire], Except.error e)
    ∧ Backend.GetChannelBalance env = ([Event.acquire], Except.error e)
    ∧ (∀ opt : List ChannelOpt, Backend.ListChannels env opt = ([Event.acquire], Except.error e))
    ∧ (∀ (amount : Int) (desc : String),
        Backend.CreateInvoice env amount desc = ([Event.acquire], Except.error e))
    ∧ (∀ rhash : String, Backend.GetInvoice env rhash = ([Event.acquire], Except.error e))
    ∧ (∀ payreq : PayReq, Backend.SendPayment env payreq = ([Event.acquire], Except.error e))
    ∧ (∀ payreq : String, Backend.DecodePayReq env payreq = ([Event.acquire], Except.error e))
    ∧ Backend.SubscribeInvoice env = ([Event.acquire], e) :=
  ⟨GetWalletBalance_errAcq env e h,
    GetChannelBalance_errAcq env e h,
    fun opt => ListChannels_errAcq env opt e h,
    fun amount desc => CreateInvoice_errAcq env amount desc e h,
    fun rhash => GetInvoice_errAcq env rhash e h,
    fun payreq => SendPayment_errAcq env payreq e h,
    fun payreq => DecodePayReq_errAcq env payreq e h,
    SubscribeInvoice_errAcq env e h⟩

/-- Witness for C8 at a concrete environment whose pool fails: the error
value comes back untouched from a unary operation and from the
subscription. -/
theorem C8_pool_error_unchanged_witness :
    envAcqErrW.poolGet = Except.error (GoError.base "pool: context deadline exceeded")
    ∧ Backend.GetInvoice envAcqErrW "ab"
        = ([Event.acquire], Except.error (GoError.base "pool: context deadline exceeded"))
    ∧ Backend.SubscribeInvoice envAcqErrW
        = ([Event.acquire], GoError.base "pool: context deadline exceeded") :=
  ⟨rfl,
    (C8_pool_error_unchanged envAcqErrW
      (GoError.base "pool: context deadline exceeded") rfl).2.2.2.2.1 "ab",
    (C8_pool_error_unchanged envAcqErrW
      (GoError.base "pool: context deadline exceeded") rfl).2.2.2.2.2.2.2⟩

/-- Claim C3: CreateInvoice builds exactly one wire request, whose value is
the amount, memo the description, creation date the current timestamp, and
expiry the fixed default constant 3600 (all other wire fields at their zero
values); and the returned domain invoice's amount, description and expiry
equal those request-side values regardless of what the wire response
echoes. -/
theorem C3_create_invoice (env : Env) (conn : Conn) (amount : Int) (desc : String)
    (h : env.poolGet = Except.ok conn) :
    lndDefaultInvoiceExpiry = 3600
    ∧ (Backend.CreateInvoice env amount desc).1.filterMap Event.addInvoiceReq
        = [{ Value := amount, Memo := desc, CreationDate := env.now
             Expiry := lndDefaultInvoiceExpiry, RHash := "", PaymentRequest := ""
             Settled := false }]
    ∧ (∀ inv : Invoice, (Backend.CreateInvoice env amount desc).2 = Except.ok inv →
        inv.Amount = amount ∧ inv.Description = desc ∧ inv.Expiry = 3600) := by
  refine ⟨rfl, ?_, ?_⟩
  · rw [CreateInvoice_ok env amount desc conn h]
    rfl
  · intro inv hinv
    rw [CreateInvoice_ok env amount desc conn h] at hinv
    revert hinv
    cases env.addInvoice
      { Value := amount, Memo := desc, CreationDate := env.now
        Expiry := lndDefaultInvoiceExpiry, RHash := "", PaymentRequest := ""
        Settled := false } with
    | error e => intro hinv; exact Except.noConfusion hinv
    | ok resp =>
      intro hinv
      injection hinv with h2
      subst h2
      exact ⟨rfl, rfl, rfl⟩

/-- Witness for C3 at `CreateInvoice(50000, "coffee")` in a concrete
successful environment whose clock reads 1700000000. -/
theorem C3_create_invoice_witness :
    envOkW.poolGet = Except.ok { target := "lnd.example:10009" }
    ∧ (Backend.CreateInvoice envOkW 50000 "coffee").1.filterMap Event.addInvoiceReq
        = [{ Value := 50000, Memo := "coffee", CreationDate := 1700000000, Expiry := 3600
             RHash := "", PaymentRequest := "", Settled := false }]
    ∧ ({ Amount := 50000, Description := "coffee", CreationDate := 1700000000, Expiry := 3600
         RHash := "ab12", PaymentRequest := "lnbc1qqq", Settled := false } : Invoice).Amount = 50000
    ∧ ({ Amount := 50000, Description := "coffee", CreationDate := 1700000000, Expiry := 3600
         RHash := "ab12", PaymentRequest := "lnbc1qqq", Settled := false } : Invoice).Description
        = "coffee"
    ∧ ({ Amount := 50000, Description := "coffee", CreationDate := 1700000000, Expiry := 3600
         RHash := "ab12", PaymentRequest := "lnbc1qqq", Settled := false } : Invoice).Expiry
        = 3600 :=
  ⟨rfl, (C3_create_invoice envOkW { target := "lnd.example:10009" } 50000 "coffee" rfl).2.1,
    ((C3_create_invoice envOkW { target := "lnd.example:10009" } 50000 "coffee" rfl).2.2 _ rfl).1,
    ((C3_create_invoice envOkW { target := "lnd.example:10009" } 50000 "coffee" rfl).2.2 _ rfl).2.1,
    ((C3_create_invoice envOkW { target := "lnd.example:10009" } 50000 "coffee" rfl).2.2 _ rfl).2.2⟩

/-- Claim C4: SendPayment, given a payment request with destination D,
amount A and encoded string S, issues exactly one remote call — whose wire
request carries only S, destination and amount left at their zero values —
and on success the returned payment's destination and amount equal D and A,
which the wire response does not even carry. -/
theorem C4_send_payment (env : Env) (conn : Conn) (payreq : PayReq)
    (h : env.poolGet = Except.ok conn) :
    (Backend.SendPayment env payreq).1.filter Event.isRemoteCall
      = [Event.callSendPaymentSync { Dest := "", Amt := 0, PaymentRequest := payreq.String }]
    ∧ (∀ p : Payment, (Backend.SendPayment env payreq).2 = Except.ok p →
        p.destination = payreq.Destination ∧ p.amount = payreq.Amount) := by
  refine ⟨?_, ?_⟩
  · rw [SendPayment_ok env payreq conn h]
    rfl
  · intro p hp
    rw [SendPayment_ok env payreq conn h] at hp
    revert hp
    cases env.sendPaymentSync { Dest := "", Amt := 0, PaymentRequest := payreq.String } with
    | error e => intro hp; exact Except.noConfusion hp
    | ok resp =>
      intro hp
      injection hp with h2
      subst h2
      exact ⟨rfl, rfl⟩

/-- Witness for C4 at a concrete request (destination "dst0", amount 100,
encoded string "lnbc100n1...") in a concrete successful environment. -/
theorem C4_send_payment_witness :
    envOkW.poolGet = Except.ok { target := "lnd.example:10009" }
    ∧ (Backend.SendPayment envOkW
          { Destination := "dst0", Amount := 100, String := "lnbc100n1s" }).1.filter
        Event.isRemoteCall
      = [Event.callSendPaymentSync { Dest := "", Amt := 0, PaymentRequest := "lnbc100n1s" }]
    ∧ ({ PaymentError := "", PaymentPreimage := "pre", PaymentHash := "ph"
         PayReq := { Destination := "dst0", Amount := 100, String := "lnbc100n1s" } }
          : Payment).destination = "dst0"
    ∧ ({ PaymentError := "", PaymentPreimage := "pre", PaymentHash := "ph"
         PayReq := { Destination := "dst0", Amount := 100, String := "lnbc100n1s" } }
          : Payment).amount = 100 :=
  ⟨rfl,
    (C4_send_payment envOkW { target := "lnd.example:10009" }
      { Destination := "dst0", Amount := 100, String := "lnbc100n1s" } rfl).1,
    ((C4_send_payment envOkW { target := "lnd.example:10009" }
      { Destination := "dst0", Amount := 100, String := "lnbc100n1s" } rfl).2 _ rfl).1,
    ((C4_send_payment envOkW { target := "lnd.example:10009" }
      { Destination := "dst0", Amount := 100, String := "lnbc100n1s" } rfl).2 _ rfl).2⟩

/-- Claim C6: ListChannels with no filter options produces a wire request
with all four filter flags false; with only the active-only option, a
request whose active flag is true and whose other three flags are false. -/
theorem C6_list_channels_flags (env : Env) (conn : Conn)
    (h : env.poolGet = Except.ok conn) :
    (Backend.ListChannels env []).1.filterMap Event.listChannelsReq
      = [{ ActiveOnly := false, InactiveOnly := false, PublicOnly := false
           PrivateOnly := false }]
    ∧ (Backend.ListChannels env [ChannelOpt.activeOnly]).1.filterMap Event.listChannelsReq
      = [{ ActiveOnly := true, InactiveOnly := false, PublicOnly := false
           PrivateOnly := false }] := by
  constructor
  · rw [ListChannels_ok env [] conn h]
    rfl
  · rw [ListChannels_ok env [ChannelOpt.activeOnly] conn h]
    rfl

/-- Witness for C6 in a concrete successful environment. -/
theorem C6_list_channels_flags_witness :
    envOkW.poolGet = Except.ok { target := "lnd.example:10009" }
    ∧ (Backend.ListChannels envOkW []).1.filterMap Event.listChannelsReq
      = [{ ActiveOnly := false, InactiveOnly := false, PublicOnly := false
           PrivateOnly := false }]
    ∧ (Backend.ListChannels envOkW [ChannelOpt.activeOnly]).1.filterMap Event.listChannelsReq
      = [{ ActiveOnly := true, InactiveOnly := false, PublicOnly := false
           PrivateOnly := false }] :=
  ⟨rfl, (C6_list_channels_flags envOkW { target := "lnd.example:10009" } rfl).1,
    (C6_list_channels_flags envOkW { target := "lnd.example:10009" } rfl).2⟩

/-- Example invoice message used by the stream witnesses. -/
def invMsg1 : InvoiceProto :=
  { Value := 10, Memo := "a", CreationDate := 1, Expiry := 2, RHash := "h1"
    PaymentRequest := "p1", Settled := false }

/-- Second example invoice message used by the stream witnesses. -/
def invMsg2 : InvoiceProto :=
  { Value := 20, Memo := "b", CreationDate := 3, Expiry := 4, RHash := "h2"
    PaymentRequest := "p2", Settled := true }

/-- A concrete environment whose invoice stream yields two messages and then
ends with a terminal receive error. -/
def envStreamW : Env :=
  { envOkW with subscribeInvoices := Except.ok ([invMsg1, invMsg2], GoError.base "EOF") }

/-- Claim C5: if the stream yields messages M1, M2 and then a receive error
E, the output channel receives the translations of M1 and M2, in that
order, before SubscribeInvoice returns; the operation returns E itself, and
the stream is opened exactly once — no reconnect, no retry. -/
theorem C5_subscribe_delivery (env : Env) (conn : Conn) (m1 m2 : InvoiceProto) (e : GoError)
    (h : env.poolGet = Except.ok conn)
    (hs : env.subscribeInvoices = Except.ok ([m1, m2], e)) :
    chanSends (Backend.SubscribeInvoice env).1
      = [lookupInvoiceProtoToInvoice m1, lookupInvoiceProtoToInvoice m2]
    ∧ (Backend.SubscribeInvoice env).2 = e
    ∧ (Backend.SubscribeInvoice env).1.count Event.callSubscribeInvoices = 1 := by
  rw [SubscribeInvoice_stream env conn [m1, m2] e h hs]
  exact ⟨rfl, rfl, rfl⟩

/-- Witness for C5 at a concrete two-message stream ending in "EOF". -/
theorem C5_subscribe_delivery_witness :
    envStreamW.poolGet = Except.ok { target := "lnd.example:10009" }
    ∧ envStreamW.subscribeInvoices = Except.ok ([invMsg1, invMsg2], GoError.base "EOF")
    ∧ chanSends (Backend.SubscribeInvoice envStreamW).1
      = [lookupInvoiceProtoToInvoice invMsg1, lookupInvoiceProtoToInvoice invMsg2]
    ∧ (Backend.SubscribeInvoice envStreamW).2 = GoError.base "EOF"
    ∧ (Backend.SubscribeInvoice envStreamW).1.count Event.callSubscribeInvoices = 1 :=
  ⟨rfl, rfl,
    (C5_subscribe_delivery envStreamW { target := "lnd.example:10009" } invMsg1 invMsg2
      (GoError.base "EOF") rfl rfl).1,
    (C5_subscribe_delivery envStreamW { target := "lnd.example:10009" } invMsg1 invMsg2
      (GoError.base "EOF") rfl rfl).2.1,
    (C5_subscribe_delivery envStreamW { target := "lnd.example:10009" } invMsg1 invMsg2
      (GoError.base "EOF") rfl rfl).2.2⟩

/-- Claim C9: SubscribeInvoice never releases (`Client.Close`) the facade it
acquires, on any path — not on stream-open failure, not per message, not
when the receive loop exits with an error. -/
theorem C9_subscribe_never_releases (env : Env) :
    Event.release ∉ (Backend.SubscribeInvoice env).1 := by
  unfold Backend.SubscribeInvoice Backend.Client
  cases env.poolGet with
  | error e => simp
  | ok conn =>
    cases env.subscribeInvoices with
    | error e => simp
    | ok p =>
      rcases p with ⟨msgs, termErr⟩
      have hnr := recvLoop_no_release msgs termErr
      simp only [List.cons_append, List.nil_append, List.mem_cons]
      push_neg
      exact ⟨by simp, by simp, hnr⟩

/-- Claim C10: if opening the server stream fails after a successful
acquisition, SubscribeInvoice returns that error unchanged — not wrapped
with a stack as unary remote-call errors are — and nothing is ever sent to
the output channel. -/
theorem C10_stream_open_error (env : Env) (conn : Conn) (e : GoError)
    (h : env.poolGet = Except.ok conn) (hs : env.subscribeInvoices = Except.error e) :
    (Backend.SubscribeInvoice env).2 = e
    ∧ chanSends (Backend.SubscribeInvoice env).1 = [] := by
  rw [SubscribeInvoice_errOpen env conn e h hs]
  exact ⟨rfl, rfl⟩

/-- Witness for C10 at a concrete environment whose stream fails to open
with cause "boom": the very same error value comes back, unwrapped. -/
theorem C10_stream_open_error_witness :
    envCallErrW.poolGet = Except.ok { target := "lnd.example:10009" }
    ∧ envCallErrW.subscribeInvoices = Except.error (GoError.base "boom")
    ∧ (Backend.SubscribeInvoice envCallErrW).2 = GoError.base "boom"
    ∧ chanSends (Backend.SubscribeInvoice envCallErrW).1 = [] :=
  ⟨rfl, rfl,
    (C10_stream_open_error envCallErrW { target := "lnd.example:10009" }
      (GoError.base "boom") rfl rfl).1,
    (C10_stream_open_error envCallErrW { target := "lnd.example:10009" }
      (GoError.base "boom") rfl rfl).2⟩

/-- Claim C7 is false on the code: at a concrete failing DecodePayReq call
(argument "lnbc1xyz", remote cause "boom") the operation returns
`errors.WithStack` of the cause — a wrapper whose message is the cause's
message verbatim, mentioning neither the operation name nor the argument,
so the returned error carries no call-site context. -/
theorem C7_counterexample :
    envCallErrW.poolGet = Except.ok { target := "lnd.example:10009" }
    ∧ (Backend.DecodePayReq envCallErrW "lnbc1xyz").2
      = Except.error (GoError.withStack (GoError.base "boom"))
    ∧ errMessage (GoError.withStack (GoError.base "boom")) = "boom"
    ∧ strContains (errMessage (GoError.withStack (GoError.base "boom"))) "DecodePayReq" = false
    ∧ strContains (errMessage (GoError.withStack (GoError.base "boom"))) "lnbc1xyz" = false := by
  refine ⟨rfl, ?_, rfl, by decide, by decide⟩
  rw [DecodePayReq_ok envCallErrW "lnbc1xyz" { target := "lnd.example:10009" } rfl]
  rfl

/-- Claim C7 (amended): for every unary operation, when the remote call
fails with cause c, the operation returns `errors.WithStack c` — a wrapper,
not the bare error, that preserves the original cause (one unwrap recovers
c) and records the call-site stack, but adds no message text: no operation
name and no arguments appear in the error's message, which stays the
cause's message verbatim. -/
theorem C7_amended_withStack_only (env : Env) (conn : Conn) (c : GoError)
    (h : env.poolGet = Except.ok conn) :
    (env.walletBalance {} = Except.error c →
      (Backend.GetWalletBalance env).2 = Except.error (GoError.withStack c))
    ∧ (env.channelBalance {} = Except.error c →
      (Backend.GetChannelBalance env).2 = Except.error (GoError.withStack c))
    ∧ (∀ opt : List ChannelOpt,
        env.listChannels
          { ActiveOnly := (NewChannelOptions opt).Active
            InactiveOnly := (NewChannelOptions opt).Inactive
            PublicOnly := (NewChannelOptions opt).Public
            PrivateOnly := (NewChannelOptions opt).Private } = Except.error c →
        (Backend.ListChannels env opt).2 = Except.error (GoError.withStack c))
    ∧ (∀ (amount : Int) (desc : String),
        env.addInvoice
          { Value := amount, Memo := desc, CreationDate := env.now
            Expiry := lndDefaultInvoiceExpiry, RHash := "", PaymentRequest := ""
            Settled := false } = Except.error c →
        (Backend.CreateInvoice env amount desc).2 = Except.error (GoError.withStack c))
    ∧ (∀ rhash : String,
        env.lookupInvoice { RHashStr := rhash } = Except.error c →
        (Backend.GetInvoice env rhash).2 = Except.error (GoError.withStack c))
    ∧ (∀ payreq : PayReq,
        env.sendPaymentSync { Dest := "", Amt := 0, PaymentRequest := payreq.String }
            = Except.error c →
        (Backend.SendPayment env payreq).2 = Except.error (GoError.withStack c))
    ∧ (∀ payreq : String,
        env.decodePayReq { PayReq := payreq } = Except.error c →
        (Backend.DecodePayReq env payreq).2 = Except.error (GoError.withStack c))
    ∧ (GoError.withStack c).unwrap = some c
    ∧ errMessage (GoError.withStack c) = errMessage c := by
  refine ⟨?_, ?_, ?_, ?_, ?_, ?_, ?_, rfl, rfl⟩
  · intro hc
    rw [GetWalletBalance_ok env conn h, hc]
  · intro hc
    rw [GetChannelBalance_ok env conn h, hc]
  · intro opt hc
    rw [ListChannels_ok env opt conn h, hc]
  · intro amount desc hc
    rw [CreateInvoice_ok env amount desc conn h, hc]
  · intro rhash hc
    rw [GetInvoice_ok env rhash conn h, hc]
  · intro payreq hc
    rw [SendPayment_ok env payreq conn h, hc]
  · intro payreq hc
    rw [DecodePayReq_ok env payreq conn h, hc]

/-- Witness for the amended C7 at a concrete environment whose remote calls
fail with cause "boom". -/
theorem C7_amended_withStack_only_witness :
    envCallErrW.poolGet = Except.ok { target := "lnd.example:10009" }
    ∧ envCallErrW.walletBalance {} = Except.error (GoError.base "boom")
    ∧ (Backend.GetWalletBalance envCallErrW).2
        = Except.error (GoError.withStack (GoError.base "boom"))
    ∧ (GoError.withStack (GoError.base "boom")).unwrap = some (GoError.base "boom") :=
  ⟨rfl, rfl,
    (C7_amended_withStack_only envCallErrW { target := "lnd.example:10009" }
      (GoError.base "boom") rfl).1 rfl,
    (C7_amended_withStack_only envCallErrW { target := "lnd.example:10009" }
      (GoError.base "boom") rfl).2.2.2.2.2.2.2.1⟩
